import Mathlib

/-!
Verification development for the suno-unfollow bot (suno-unfollow.py).

The file gives a shallow embedding of the pure decision logic of the
program: the username validator (User.validate_username), the paginated
collector loop (SunoBot.get_users), the unfollow driver
(SunoBot.unfollow_user), the reconciler and ledger handling
(SunoBot.find_and_unfollow_nonreciprocal) and the resource teardown
(SunoBot.cleanup).  External effects (browser navigation, network calls,
sleeps, randomized waits) are represented by environment parameters and
by explicit event traces, so that each theorem can speak about exactly
which requests, refreshes and sleeps the code performs.

Strings are modelled as lists of characters; the character classes of the
Python regular expression are modelled over the ASCII range, which is the
range every handle in the theorems below lives in.
-/

namespace SunoUnfollow

/-- Whitespace characters removed by the Python str.strip method
(ASCII subset: space, tab, newline, carriage return, vertical tab,
form feed). -/
def isPySpace (c : Char) : Bool :=
  c = ' ' || c = '\t' || c = '\n' || c = '\r' || c = '\x0b' || c = '\x0c'

/-- Python str.strip: drop whitespace from both ends. -/
def pyStrip (l : List Char) : List Char :=
  ((l.dropWhile isPySpace).reverse.dropWhile isPySpace).reverse

/-- The character class of the backslash-w atom of the validator pattern,
restricted to ASCII (letters, digits, underscore). -/
def isWordChar (c : Char) : Bool :=
  c.isAlpha || c.isDigit || c = '_'

/-- Full match against the anchored pattern of User.validate_username:
between 2 and 30 characters, each a word character or a hyphen.
The pattern is only ever applied to stripped strings, which cannot end
in a newline, so modelling the dollar anchor as the strict end of the
string is faithful. -/
def matchesHandlePattern (s : List Char) : Bool :=
  decide (2 ≤ s.length) && decide (s.length ≤ 30) &&
    s.all (fun c => isWordChar c || c = '-')

/-- The cleaning step used both by User.validate_username and by the
collector when it normalizes a handle from an API profile:
username.replace removes every at-sign occurrence, then strip removes
surrounding whitespace (source lines 24 and 479). -/
def cleanedHandle (h : List Char) : List Char :=
  pyStrip (h.filter (fun c => c ≠ '@'))

/-- User.validate_username (source lines 19-25): an empty string is
rejected, otherwise the cleaned form is matched against the anchored
pattern.  The isinstance branch for non-string input is outside the
string domain of this model. -/
def validate_username (username : List Char) : Bool :=
  if username = [] then false
  else matchesHandlePattern (cleanedHandle username)

/-- Cleaning as the specification describes it: strip one leading at-sign
marker, then surrounding whitespace.  This definition follows the words
of the spec and exists only to be compared against cleanedHandle, which
is the translation of the source. -/
def spec_cleaned_leading_marker (h : List Char) : List Char :=
  pyStrip (match h with
    | '@' :: rest => rest
    | l => l)

/-- Convenience: the character list of a string literal. -/
def chars (s : String) : List Char :=
  s.data

/-- Claim C8, counterexample: the claim states that validate is true
exactly when the form obtained by stripping a LEADING at-sign marker and
surrounding whitespace matches the pattern.  On the input a-at-b the
source removes the interior at-sign as well (str.replace removes every
occurrence), so validate returns true, while the claimed cleaned form
still contains the at-sign and does not match the pattern.  The claimed
equivalence is therefore false at this input. -/
theorem C8_interior_marker_counterexample :
    validate_username (chars "a@b") = true ∧
    matchesHandlePattern (spec_cleaned_leading_marker (chars "a@b")) = false := by
  decide

/-- Claim C8, amended: validate strips EVERY at-sign occurrence (not only
a leading marker) and surrounding whitespace, and returns true exactly
when that cleaned form has length 2 to 30 and consists of word
characters or hyphens; the listed concrete examples hold, and the
function is total (it is a Lean function, hence pure and non-raising on
every string). -/
theorem C8_validator_amended :
    validate_username (chars "@bob") = true ∧
    validate_username (chars "bob") = true ∧
    validate_username (chars "") = false ∧
    validate_username (chars "a") = false ∧
    validate_username (List.replicate 31 'x') = false ∧
    ∀ s : List Char, validate_username s = true ↔
      (2 ≤ (cleanedHandle s).length ∧ (cleanedHandle s).length ≤ 30 ∧
        ∀ c ∈ cleanedHandle s, (isWordChar c || c = '-') = true) := by
  refine ⟨by decide, by decide, by decide, by decide, by decide, ?_⟩
  intro s
  by_cases hs : s = []
  · subst hs
    simp [validate_username, cleanedHandle, pyStrip]
  · simp only [validate_username, if_neg hs, matchesHandlePattern,
      Bool.and_eq_true, decide_eq_true_eq, List.all_eq_true]
    tauto

/-! ### Paginated collector (SunoBot.get_users, source lines 332-500)

The environment of one collection pass is a function from
(page number, attempt index within that page's retry loop) to the outcome
of the in-page fetch of that attempt.  The JavaScript helper throws an
HTTP error for every non-ok status, so the outcomes are: a parsed JSON
dictionary, a successful response whose JSON body is falsy or not a
dictionary, an HTTP error with a status code, or any other error.
The auth-header refresh performed after a 401 (refresh_auth_headers,
lines 355-394) is a browser navigation; it is modelled as an event in
the trace and assumed to succeed, which is the situation every claim
below is about. -/

/-- A parsed listing response body: the optional num_total_profiles field
and the optional profiles array; a profile entry is present exactly when
it carries a handle key. -/
structure PageData where
  numTotal : Option Nat
  profiles : Option (List (Option (List Char)))
deriving DecidableEq

/-- Outcome of one in-page fetch attempt. -/
inductive ApiResult where
  | ok (d : PageData)
  | okBad
  | httpErr (status : Nat)
  | otherErr
deriving DecidableEq

/-- Observable events of a collection pass: a fetch of a page and a full
auth-header refresh. -/
inductive Ev where
  | fetch (page : Nat)
  | refresh
deriving DecidableEq

/-- Result of the per-page retry loop (lines 419-461). -/
inductive InnerOut where
  | gotData (d : PageData)
  | gotBad
  | exhausted
  | fatalHttp (s : Nat)
  | fatalOther
deriving DecidableEq

/-- One attempt of the per-page retry loop: a 502 status sleeps and
retries, a 401 status refreshes the auth headers and retries (both after
incrementing api_retry_count, lines 444-455), any other error re-raises.
The source matches the status by substring containment in the error
message, which for three-digit HTTP statuses coincides with equality. -/
inductive StepOut where
  | data (d : PageData)
  | bad
  | retryStep (withRefresh : Bool)
  | fatalHttp (s : Nat)
  | fatalOther
deriving DecidableEq

/-- Classify one fetch attempt of a page. -/
def step (api : Nat → Nat → ApiResult) (p k : Nat) : StepOut :=
  match api p k with
  | .ok d => .data d
  | .okBad => .bad
  | .httpErr s =>
      if s = 502 then .retryStep false
      else if s = 401 then .retryStep true
      else .fatalHttp s
  | .otherErr => .fatalOther

/-- Events of one fetch attempt: the fetch itself, followed by a refresh
when the attempt hit a 401. -/
def attEvs (p : Nat) (o : StepOut) : List Ev :=
  match o with
  | .retryStep true => [.fetch p, .refresh]
  | _ => [.fetch p]

/-- The per-page retry loop with MAX_API_RETRIES = 3, unrolled: at most
three fetches of the page; reaching api_retry_count = 3 raises the
retries-exhausted exception (line 460-461). -/
def innerLoop (api : Nat → Nat → ApiResult) (p : Nat) : InnerOut × List Ev :=
  match step api p 0 with
  | .data d => (.gotData d, attEvs p (step api p 0))
  | .bad => (.gotBad, attEvs p (step api p 0))
  | .fatalHttp s => (.fatalHttp s, attEvs p (step api p 0))
  | .fatalOther => (.fatalOther, attEvs p (step api p 0))
  | .retryStep _ =>
    match step api p 1 with
    | .data d => (.gotData d, attEvs p (step api p 0) ++ attEvs p (step api p 1))
    | .bad => (.gotBad, attEvs p (step api p 0) ++ attEvs p (step api p 1))
    | .fatalHttp s => (.fatalHttp s, attEvs p (step api p 0) ++ attEvs p (step api p 1))
    | .fatalOther => (.fatalOther, attEvs p (step api p 0) ++ attEvs p (step api p 1))
    | .retryStep _ =>
      match step api p 2 with
      | .data d =>
          (.gotData d,
            attEvs p (step api p 0) ++ attEvs p (step api p 1) ++ attEvs p (step api p 2))
      | .bad =>
          (.gotBad,
            attEvs p (step api p 0) ++ attEvs p (step api p 1) ++ attEvs p (step api p 2))
      | .fatalHttp s =>
          (.fatalHttp s,
            attEvs p (step api p 0) ++ attEvs p (step api p 1) ++ attEvs p (step api p 2))
      | .fatalOther =>
          (.fatalOther,
            attEvs p (step api p 0) ++ attEvs p (step api p 1) ++ attEvs p (step api p 2))
      | .retryStep _ =>
          (.exhausted,
            attEvs p (step api p 0) ++ attEvs p (step api p 1) ++ attEvs p (step api p 2))

/-- Accumulate the profiles of one page into the running user set
(lines 476-481): entries without a handle key are skipped, each handle is
cleaned, validated, and added to the set.  The Python set is modelled as
an order-preserving duplicate-free list, so its len is the list length. -/
def processProfiles (users : List (List Char)) (profs : List (Option (List Char))) :
    List (List Char) :=
  profs.foldl (fun us p =>
    match p with
    | none => us
    | some h =>
      let c := cleanedHandle h
      if validate_username c = true ∧ c ∉ us then us ++ [c] else us) users

/-- Ceiling division computed at line 469 as the negated floor division
of the negated total by 20, which on non-negative totals equals
(t + 19) / 20. -/
def ceilPages (t : Nat) : Nat :=
  (t + 19) / 20

/-- Python truthiness of the loop bound (total_pages or 1): a missing or
zero total behaves as 1. -/
def pyOr1 (t : Option Nat) : Nat :=
  match t with
  | none => 1
  | some n => if n = 0 then 1 else n

/-- The error cases of a collection pass; every one of them is raised in
the source as a plain Exception. -/
inductive CollectErr where
  | initialAuthFailure
  | pageRetriesExhausted
  | invalidFormat
  | noProfilesKey
  | apiFatalHttp (s : Nat)
  | apiFatalOther
deriving DecidableEq

/-- Result of a collection pass. -/
inductive CollectOut where
  | ok (users : List (List Char))
  | err (e : CollectErr)
deriving DecidableEq

/-- The while loop over the pages after the first one (lines 416-491).
After page 1 the loop bound (total_pages or 1) is fixed, so the loop is
the traversal of the list of remaining page numbers; the break at
line 486-488 fires when a page contributes no new user and the current
page is past the first.  Every page in this list is at least 2. -/
def collectPages (api : Nat → Nat → ApiResult) (users : List (List Char)) :
    List Nat → CollectOut × List Ev
  | [] => (.ok users, [])
  | p :: rest =>
    match innerLoop api p with
    | (.gotData d, evs) =>
      match d.profiles with
      | none => (.err .noProfilesKey, evs)
      | some profs =>
        let users2 := processProfiles users profs
        if users2.length - users.length = 0 ∧ 1 < p then (.ok users2, evs)
        else
          let r := collectPages api users2 rest
          (r.1, evs ++ r.2)
    | (.gotBad, evs) => (.err .invalidFormat, evs)
    | (.exhausted, evs) => (.err .pageRetriesExhausted, evs)
    | (.fatalHttp s, evs) => (.err (.apiFatalHttp s), evs)
    | (.fatalOther, evs) => (.err .apiFatalOther, evs)

/-- The page numbers visited after page 1 when the bound computed from
the first response is b: pages 2..b. -/
def pageList (bound : Nat) : List Nat :=
  List.range' 2 (bound - 1)

/-- SunoBot.get_users (lines 332-500).  The initialCaptured flag records
whether the initial auth-header harvest observed a qualifying response
within its 20-second window; when it did not, the source raises a plain
Exception (line 413).  Page 1 is processed first: it can never trigger
the zero-new-users break (current_page is not greater than 1), and it is
the only iteration that can set total_pages, because while total_pages
is missing the loop bound is 1.  The remaining pages run through
collectPages. -/
def get_users (initialCaptured : Bool) (api : Nat → Nat → ApiResult) :
    CollectOut × List Ev :=
  if initialCaptured = false then (.err .initialAuthFailure, [])
  else
    match innerLoop api 1 with
    | (.gotData d, evs) =>
      match d.profiles with
      | none => (.err .noProfilesKey, evs)
      | some profs =>
        let users := processProfiles [] profs
        let bound := pyOr1 (d.numTotal.map ceilPages)
        let r := collectPages api users (pageList bound)
        (r.1, evs ++ r.2)
    | (.gotBad, evs) => (.err .invalidFormat, evs)
    | (.exhausted, evs) => (.err .pageRetriesExhausted, evs)
    | (.fatalHttp s, evs) => (.err (.apiFatalHttp s), evs)
    | (.fatalOther, evs) => (.err .apiFatalOther, evs)

/-! ### Pagination lemmas and claim C1 -/

/-- A successful fetch attempt classifies as data. -/
theorem step_eq_data (api : Nat → Nat → ApiResult) (p k : Nat) (d : PageData)
    (h : api p k = .ok d) : step api p k = .data d := by
  simp [step, h]

/-- A 401 fetch attempt classifies as a retry with refresh. -/
theorem step_eq_retry401 (api : Nat → Nat → ApiResult) (p k : Nat)
    (h : api p k = .httpErr 401) : step api p k = .retryStep true := by
  simp [step, h]

/-- A 502 fetch attempt classifies as a retry without refresh. -/
theorem step_eq_retry502 (api : Nat → Nat → ApiResult) (p k : Nat)
    (h : api p k = .httpErr 502) : step api p k = .retryStep false := by
  simp [step, h]

/-- When the first attempt of a page succeeds, the retry loop returns its
data after a single fetch. -/
theorem innerLoop_first_ok (api : Nat → Nat → ApiResult) (p : Nat) (d : PageData)
    (h : api p 0 = .ok d) : innerLoop api p = (.gotData d, [.fetch p]) := by
  simp [innerLoop, step_eq_data api p 0 d h, attEvs]

/-- When the first attempt of a page hits a 401 and the second succeeds,
the retry loop refreshes the auth headers once and returns the data of
the second fetch of the same page. -/
theorem innerLoop_401_then_ok (api : Nat → Nat → ApiResult) (p : Nat) (d : PageData)
    (h0 : api p 0 = .httpErr 401) (h1 : api p 1 = .ok d) :
    innerLoop api p = (.gotData d, [.fetch p, .refresh, .fetch p]) := by
  simp [innerLoop, step_eq_retry401 api p 0 h0, step_eq_data api p 1 d h1, attEvs]

/-- Accumulating a page of fresh handles: when every handle of the page
is valid, already in cleaned form, not yet collected, and the page has
no internal duplicates, the page is appended to the user set in order. -/
theorem processProfiles_fresh (l : List (List Char)) (us : List (List Char))
    (hv : ∀ h ∈ l, validate_username h = true)
    (hc : ∀ h ∈ l, cleanedHandle h = h)
    (hd : ∀ h ∈ l, h ∉ us)
    (hn : l.Nodup) :
    processProfiles us (l.map some) = us ++ l := by
  induction l generalizing us with
  | nil => simp [processProfiles]
  | cons h t ih =>
    have hch : cleanedHandle h = h := hc h (by simp)
    have hvh : validate_username h = true := hv h (by simp)
    have hdh : h ∉ us := hd h (by simp)
    have hstep : processProfiles us ((h :: t).map some) =
        processProfiles (us ++ [h]) (t.map some) := by
      simp [processProfiles, hch, hvh, hdh]
    rw [hstep, ih (us ++ [h])
      (fun x hx => hv x (by simp [hx]))
      (fun x hx => hc x (by simp [hx]))
      (fun x hx => by
        have hx1 : x ∉ us := hd x (by simp [hx])
        have hx2 : x ≠ h := by
          intro he
          subst he
          exact (List.nodup_cons.mp hn).1 hx
        simp [List.mem_append, hx1, hx2])
      (List.nodup_cons.mp hn).2]
    rw [List.append_assoc]
    rfl

/-- The profiles array of one page of the C1 run: the handles of index
a to a+n-1, each wrapped as a present profile entry. -/
def sliceMap (hs : Nat → List Char) (a n : Nat) : List (Option (List Char)) :=
  (List.range' a n).map (fun i => some (hs i))

/-- A slice is the option-wrapping of the mapped index range. -/
theorem sliceMap_eq_map_some (hs : Nat → List Char) (a n : Nat) :
    sliceMap hs a n = ((List.range' a n).map hs).map some := by
  simp [sliceMap, List.map_map]

/-- Handles indexed by a range, with an injective handle family, form a
duplicate-free list. -/
theorem nodup_slice (hs : Nat → List Char) (a n : Nat)
    (hinj : ∀ i, a ≤ i → i < a + n → ∀ j, a ≤ j → j < a + n → hs i = hs j → i = j) :
    ((List.range' a n).map hs).Nodup := by
  refine List.Nodup.map_on ?_ (List.nodup_range' a n)
  intro x hx y hy hxy
  rw [List.mem_range'_1] at hx hy
  exact hinj x hx.1 hx.2 y hy.1 hy.2 hxy

/-- Claim C1: in a collection pass whose first successful response for
each page arrives on the first attempt, carries num_total_profiles = 45,
and delivers 20, 20 and 5 distinct valid handles on pages 1, 2 and 3,
the collector computes the total page count by ceiling division
(45 / 20 rounded up = 3), issues exactly three page fetches, and returns
the 45 distinct handles. -/
theorem C1_pagination_ceiling (hs : Nat → List Char) (api : Nat → Nat → ApiResult)
    (hval : ∀ i, i < 45 → validate_username (hs i) = true)
    (hfix : ∀ i, i < 45 → cleanedHandle (hs i) = hs i)
    (hinj : ∀ i, i < 45 → ∀ j, j < 45 → hs i = hs j → i = j)
    (h1 : api 1 0 = .ok ⟨some 45, some (sliceMap hs 0 20)⟩)
    (h2 : api 2 0 = .ok ⟨some 45, some (sliceMap hs 20 20)⟩)
    (h3 : api 3 0 = .ok ⟨some 45, some (sliceMap hs 40 5)⟩) :
    ceilPages 45 = 3 ∧
    get_users true api =
      (.ok ((List.range 45).map hs), [.fetch 1, .fetch 2, .fetch 3]) ∧
    ((List.range 45).map hs).length = 45 ∧
    ((List.range 45).map hs).Nodup := by
  have slice1 : List (List Char) := (List.range' 0 20).map hs
  -- page contents as plain handle lists
  have meml : ∀ a n, a + n ≤ 45 → ∀ h ∈ (List.range' a n).map hs,
      ∃ i, a ≤ i ∧ i < a + n ∧ hs i = h := by
    intro a n hle h hh
    rcases List.mem_map.mp hh with ⟨i, hi, rfl⟩
    rw [List.mem_range'_1] at hi
    exact ⟨i, hi.1, hi.2, rfl⟩
  have hval' : ∀ a n, a + n ≤ 45 → ∀ h ∈ (List.range' a n).map hs,
      validate_username h = true := by
    intro a n hle h hh
    rcases meml a n hle h hh with ⟨i, _, hi2, rfl⟩
    exact hval i (lt_of_lt_of_le hi2 hle)
  have hfix' : ∀ a n, a + n ≤ 45 → ∀ h ∈ (List.range' a n).map hs,
      cleanedHandle h = h := by
    intro a n hle h hh
    rcases meml a n hle h hh with ⟨i, _, hi2, rfl⟩
    exact hfix i (lt_of_lt_of_le hi2 hle)
  have hnd : ∀ a n, a + n ≤ 45 → ((List.range' a n).map hs).Nodup := by
    intro a n hle
    refine nodup_slice hs a n ?_
    intro i _ hi j _ hj hij
    exact hinj i (lt_of_lt_of_le hi hle) j (lt_of_lt_of_le hj hle) hij
  have hdisj : ∀ a n b m, a + n ≤ b → b + m ≤ 45 →
      ∀ h ∈ (List.range' b m).map hs, h ∉ (List.range' a n).map hs := by
    intro a n b m hab hbm h hh hmem
    rcases meml b m hbm h hh with ⟨i, hi1, hi2, hieq⟩
    rcases meml a n (le_trans hab (le_trans (Nat.le_add_right b m) hbm)) h hmem
      with ⟨j, hj1, hj2, hjeq⟩
    have : i = j := hinj i (lt_of_lt_of_le hi2 hbm) j
      (lt_of_lt_of_le hj2 (le_trans hab (le_trans (Nat.le_add_right b m) hbm)))
      (hieq.trans hjeq.symm)
    omega
  -- accumulated user lists after each page
  have hu1 : processProfiles [] (sliceMap hs 0 20) = (List.range' 0 20).map hs := by
    rw [sliceMap_eq_map_some]
    have := processProfiles_fresh ((List.range' 0 20).map hs) []
      (hval' 0 20 (by omega)) (hfix' 0 20 (by omega)) (by simp) (hnd 0 20 (by omega))
    simpa using this
  have hu2 : processProfiles ((List.range' 0 20).map hs) (sliceMap hs 20 20) =
      (List.range' 0 20).map hs ++ (List.range' 20 20).map hs := by
    rw [sliceMap_eq_map_some]
    exact processProfiles_fresh ((List.range' 20 20).map hs) ((List.range' 0 20).map hs)
      (hval' 20 20 (by omega)) (hfix' 20 20 (by omega))
      (hdisj 0 20 20 20 (by omega) (by omega)) (hnd 20 20 (by omega))
  have hu3 : processProfiles ((List.range' 0 20).map hs ++ (List.range' 20 20).map hs)
      (sliceMap hs 40 5) =
      ((List.range' 0 20).map hs ++ (List.range' 20 20).map hs) ++
        (List.range' 40 5).map hs := by
    rw [sliceMap_eq_map_some]
    refine processProfiles_fresh ((List.range' 40 5).map hs) _
      (hval' 40 5 (by omega)) (hfix' 40 5 (by omega)) ?_ (hnd 40 5 (by omega))
    intro h hh
    simp only [List.mem_append]
    push_neg
    exact ⟨hdisj 0 20 40 5 (by omega) (by omega) h hh,
      hdisj 20 20 40 5 (by omega) (by omega) h hh⟩
  have hrange : (List.range' 0 20 ++ List.range' 20 20) ++ List.range' 40 5 =
      List.range 45 := by decide
  have husers : ((List.range' 0 20).map hs ++ (List.range' 20 20).map hs) ++
      (List.range' 40 5).map hs = (List.range 45).map hs := by
    rw [← List.map_append, ← List.map_append, hrange]
  -- now run the collector
  have hil1 := innerLoop_first_ok api 1 ⟨some 45, some (sliceMap hs 0 20)⟩ h1
  have hil2 := innerLoop_first_ok api 2 ⟨some 45, some (sliceMap hs 20 20)⟩ h2
  have hil3 := innerLoop_first_ok api 3 ⟨some 45, some (sliceMap hs 40 5)⟩ h3
  have hpages : pageList (pyOr1 ((some (45 : Nat)).map ceilPages)) = [2, 3] := by decide
  have hcp3 : collectPages api ((List.range' 0 20).map hs ++ (List.range' 20 20).map hs)
      [3] = (.ok ((List.range 45).map hs), [.fetch 3]) := by
    rw [collectPages, hil3]
    simp only [hu3]
    rw [if_neg]
    · rw [collectPages]
      simp [husers]
    · intro hcon
      have := hcon.1
      simp at this
  have hcp2 : collectPages api ((List.range' 0 20).map hs) [2, 3] =
      (.ok ((List.range 45).map hs), [.fetch 2, .fetch 3]) := by
    rw [collectPages, hil2]
    simp only [hu2]
    rw [if_neg]
    · rw [hcp3]
      simp
    · intro hcon
      have := hcon.1
      simp at this
  refine ⟨by decide, ?_, by simp, ?_⟩
  · rw [get_users]
    simp only [Bool.true_eq_false, if_false]
    rw [hil1]
    simp only [hu1, hpages]
    rw [hcp2]
    simp
  · rw [← husers]
    refine List.Nodup.append (List.Nodup.append (hnd 0 20 (by omega)) (hnd 20 20 (by omega)) ?_)
      (hnd 40 5 (by omega)) ?_
    · intro h h1m h2m
      exact hdisj 0 20 20 20 (by omega) (by omega) h h2m h1m
    · intro h h1m h2m
      rcases List.mem_append.mp h1m with hm | hm
      · exact hdisj 0 20 40 5 (by omega) (by omega) h h2m hm
      · exact hdisj 20 20 40 5 (by omega) (by omega) h h2m hm

/-- A concrete family of 45 distinct valid handles: the letter u followed
by two decimal digits. -/
def mkHandle (i : Nat) : List Char :=
  ['u', Char.ofNat (48 + i / 10), Char.ofNat (48 + i % 10)]

/-- The concrete mock listing API of the C1 run: every attempt of page 1
returns handles 0-19, page 2 handles 20-39, every further page handles
40-44, always with num_total_profiles = 45. -/
def apiC1 : Nat → Nat → ApiResult :=
  fun p _ =>
    if p = 1 then .ok ⟨some 45, some (sliceMap mkHandle 0 20)⟩
    else if p = 2 then .ok ⟨some 45, some (sliceMap mkHandle 20 20)⟩
    else .ok ⟨some 45, some (sliceMap mkHandle 40 5)⟩

/-- Witness for claim C1 at the concrete mock API. -/
theorem C1_pagination_ceiling_witness :
    ceilPages 45 = 3 ∧
    get_users true apiC1 =
      (.ok ((List.range 45).map mkHandle), [.fetch 1, .fetch 2, .fetch 3]) ∧
    ((List.range 45).map mkHandle).length = 45 ∧
    ((List.range 45).map mkHandle).Nodup :=
  C1_pagination_ceiling mkHandle apiC1 (by decide) (by decide) (by decide)
    rfl rfl rfl

/-! ### Claim C2: 401 handling in the collector -/

/-- A mock API for the C2 counterexample: on every page the first
attempt returns 401, the second and third return 502, and a fourth
attempt would succeed with a full first page. -/
def apiC2ce : Nat → Nat → ApiResult :=
  fun _ k =>
    if k = 0 then .httpErr 401
    else if k = 3 then .ok ⟨some 45, some (sliceMap mkHandle 0 20)⟩
    else .httpErr 502

/-- Claim C2, counterexample: the claim states that a 401 retry does not
consume a retry count against the 3-attempt 502-retry budget.  In the
source, api_retry_count is incremented before the status check
(line 445), so the 401 does consume one of the three attempts: after a
401 and only two 502 responses the loop exits with api_retry_count = 3
and the page fetch fails, even though a fourth attempt (which the
claimed budget would still allow, since only two 502 retries were spent)
would have succeeded.  The trace shows exactly three fetches and one
refresh, and no fourth fetch. -/
theorem C2_retry_budget_counterexample :
    get_users true apiC2ce =
      (.err .pageRetriesExhausted, [.fetch 1, .refresh, .fetch 1, .fetch 1]) ∧
    apiC2ce 1 3 = .ok ⟨some 45, some (sliceMap mkHandle 0 20)⟩ := by
  decide

/-- Claim C2, amended: a 401-class page fetch error triggers a full
auth-header refresh and a retry of the same page without advancing the
page number, but it does consume one of the three shared retry attempts
of the page; in particular, when every page's first attempt returns 401
and the second returns 200, exactly one refresh occurs per page and
every page still succeeds on its second attempt, within the budget. -/
theorem C2_401_refresh_amended (api : Nat → Nat → ApiResult)
    (h10 : api 1 0 = .httpErr 401)
    (h11 : api 1 1 = .ok ⟨some 45, some (sliceMap mkHandle 0 20)⟩)
    (h20 : api 2 0 = .httpErr 401)
    (h21 : api 2 1 = .ok ⟨some 45, some (sliceMap mkHandle 20 20)⟩)
    (h30 : api 3 0 = .httpErr 401)
    (h31 : api 3 1 = .ok ⟨some 45, some (sliceMap mkHandle 40 5)⟩) :
    get_users true api =
      (.ok ((List.range 45).map mkHandle),
        [.fetch 1, .refresh, .fetch 1, .fetch 2, .refresh, .fetch 2,
         .fetch 3, .refresh, .fetch 3]) := by
  have hil1 := innerLoop_401_then_ok api 1 _ h10 h11
  have hil2 := innerLoop_401_then_ok api 2 _ h20 h21
  have hil3 := innerLoop_401_then_ok api 3 _ h30 h31
  have hu1 : processProfiles [] (sliceMap mkHandle 0 20) =
      (List.range' 0 20).map mkHandle := by decide
  have hu2 : processProfiles ((List.range' 0 20).map mkHandle) (sliceMap mkHandle 20 20) =
      (List.range' 0 40).map mkHandle := by decide
  have hu3 : processProfiles ((List.range' 0 40).map mkHandle) (sliceMap mkHandle 40 5) =
      (List.range 45).map mkHandle := by decide
  have hpages : pageList (pyOr1 ((some (45 : Nat)).map ceilPages)) = [2, 3] := by decide
  have hcp3 : collectPages api ((List.range' 0 40).map mkHandle) [3] =
      (.ok ((List.range 45).map mkHandle), [.fetch 3, .refresh, .fetch 3]) := by
    rw [collectPages, hil3]
    simp only [hu3]
    rw [if_neg]
    · rw [collectPages]
      simp
    · decide
  have hcp2 : collectPages api ((List.range' 0 20).map mkHandle) [2, 3] =
      (.ok ((List.range 45).map mkHandle),
        [.fetch 2, .refresh, .fetch 2, .fetch 3, .refresh, .fetch 3]) := by
    rw [collectPages, hil2]
    simp only [hu2]
    rw [if_neg]
    · rw [hcp3]
      simp
    · decide
  rw [get_users]
  simp only [Bool.true_eq_false, if_false]
  rw [hil1]
  simp only [hu1, hpages]
  rw [hcp2]
  simp

/-- A mock API realizing the amended C2 run: first attempt of every page
is 401, later attempts deliver the page data. -/
def apiC2 : Nat → Nat → ApiResult :=
  fun p k => if k = 0 then .httpErr 401 else apiC1 p k

/-- Witness for the amended claim C2 at the concrete mock API. -/
theorem C2_401_refresh_amended_witness :
    get_users true apiC2 =
      (.ok ((List.range 45).map mkHandle),
        [.fetch 1, .refresh, .fetch 1, .fetch 2, .refresh, .fetch 2,
         .fetch 3, .refresh, .fetch 3]) :=
  C2_401_refresh_amended apiC2 rfl rfl rfl rfl rfl rfl

/-! ### Claim C6: early stop when a later page adds nothing -/

/-- Claim C6: in every collection pass whose first page reports 45 total
profiles (hence a computed bound of 3 pages) and whose second page
contributes zero handles that are not already collected, the pass stops
right after page 2: it returns the users collected so far and the trace
contains no fetch of page 3 or beyond, even though the computed total
page count implies one more page. -/
theorem C6_early_stop (api : Nat → Nat → ApiResult)
    (profs1 profs2 : List (Option (List Char)))
    (h1 : api 1 0 = .ok ⟨some 45, some profs1⟩)
    (h2 : api 2 0 = .ok ⟨some 45, some profs2⟩)
    (hz : (processProfiles (processProfiles [] profs1) profs2).length =
      (processProfiles [] profs1).length) :
    get_users true api =
      (.ok (processProfiles (processProfiles [] profs1) profs2),
        [.fetch 1, .fetch 2]) := by
  have hil1 := innerLoop_first_ok api 1 ⟨some 45, some profs1⟩ h1
  have hil2 := innerLoop_first_ok api 2 ⟨some 45, some profs2⟩ h2
  have hpages : pageList (pyOr1 ((some (45 : Nat)).map ceilPages)) = [2, 3] := by decide
  have hcp2 : collectPages api (processProfiles [] profs1) [2, 3] =
      (.ok (processProfiles (processProfiles [] profs1) profs2), [.fetch 2]) := by
    have hz0 : (processProfiles (processProfiles [] profs1) profs2).length -
        (processProfiles [] profs1).length = 0 := by
      rw [hz]
      exact Nat.sub_self _
    rw [collectPages, hil2]
    simp [hz0]
  rw [get_users]
  simp only [Bool.true_eq_false, if_false]
  rw [hil1]
  simp only [hpages]
  rw [hcp2]
  simp

/-- A mock API for the C6 witness: every page returns the same 20
handles, with a declared total of 45 profiles. -/
def apiC6 : Nat → Nat → ApiResult :=
  fun _ _ => .ok ⟨some 45, some (sliceMap mkHandle 0 20)⟩

set_option maxRecDepth 10000 in
/-- Witness for claim C6 at the concrete mock API. -/
theorem C6_early_stop_witness :
    get_users true apiC6 =
      (.ok (processProfiles (processProfiles [] (sliceMap mkHandle 0 20))
        (sliceMap mkHandle 0 20)), [.fetch 1, .fetch 2]) :=
  C6_early_stop apiC6 (sliceMap mkHandle 0 20) (sliceMap mkHandle 0 20)
    rfl rfl (by decide)

/-! ### Auth-header harvesting error kinds and the unfollow driver
(SunoBot.unfollow_user, source lines 210-327) -/

/-- The request-derived fields of a captured credential bundle (the
constant content-type, origin and referer entries added by the driver's
capture callback carry no information). -/
structure AuthHeaders where
  authorization : List Char
  sessionId : List Char
  deviceId : List Char
  affiliateId : List Char
deriving DecidableEq

/-- The two exception classes relevant to harvesting failures: the
custom SessionError and the plain built-in Exception. -/
inductive PyError where
  | sessionError
  | genericError
deriving DecidableEq

/-- The ensure_auth_headers helper of the unfollow driver (lines
235-264): when the 20-second observation window ends without a captured
bundle it raises SessionError (line 259), otherwise it returns the
bundle. -/
def ensure_auth_headers (captured : Option AuthHeaders) : Except PyError AuthHeaders :=
  match captured with
  | some h => .ok h
  | none => .error .sessionError

/-- Exception class of each collection-pass error: every raise statement
inside get_users uses the plain Exception class (lines 394, 413, 461,
464, 473 and the re-raise at 495), never SessionError. -/
def collectErrClass : CollectErr → PyError :=
  fun _ => .genericError

/-- Python int applied to a string: surrounding whitespace is ignored,
an optional sign precedes a nonempty digit run; anything else raises
ValueError, modelled as none. -/
def pyDigits (l : List Char) : Option Nat :=
  if l ≠ [] ∧ l.all Char.isDigit then
    some (l.foldl (fun n c => n * 10 + (c.toNat - 48)) 0)
  else none

/-- Parse a Python int literal from a string, with sign. -/
def pyInt (l : List Char) : Option Int :=
  match pyStrip l with
  | '+' :: r => (pyDigits r).map Int.ofNat
  | '-' :: r => (pyDigits r).map (fun n => -(n : Int))
  | r => (pyDigits r).map Int.ofNat

/-- Observable events of one unfollow_user call: an auth-header harvest
navigation, the unfollow API request, a session re-verification after a
401, the exact sleep of the Retry-After branch, and the randomized
sleeps (recorded with their lower and upper bounds in seconds). -/
inductive UEv where
  | harvest
  | request (handle : List Char)
  | verifySession
  | sleepRetry (secs : Int)
  | sleepRand (lo hi : Nat)
deriving DecidableEq

/-- An unfollow API response: its status and the raw Retry-After header
value when present. -/
structure RespU where
  status : Nat
  retryAfter : Option (List Char)
deriving DecidableEq

/-- The default string for a missing Retry-After header. -/
def sixtyChars : List Char :=
  ['6', '0']

/-- One attempt of the unfollow retry loop (lines 266-325): harvest
headers (SessionError when the window closes empty, handled at lines
313-318), then classify the response: 204 records the handle and sleeps
the randomized 30-60 second cooldown; 401 re-verifies the session and
retries; 429 parses the Retry-After header with a default of the string
sixty and sleeps exactly that long before retrying, while a
non-integer header makes int raise ValueError, which falls to the
generic handler at lines 320-325 (randomized 15-30 second wait if
attempts remain); any other status waits a randomized 10-15 seconds if
attempts remain, else fails.  The first component is none when the loop
continues to the next attempt, and the final result when it returns. -/
def unfollowAttempt (resp : Nat → RespU) (capture : Nat → Option AuthHeaders)
    (u : List Char) (k : Nat) : Option Bool × List UEv :=
  match ensure_auth_headers (capture k) with
  | .error _ =>
    if k + 1 < 3 then (none, [.harvest, .sleepRand 15 30])
    else (some false, [.harvest])
  | .ok _ =>
    let r := resp k
    if r.status = 204 then (some true, [.harvest, .request u, .sleepRand 30 60])
    else if r.status = 401 then (none, [.harvest, .request u, .verifySession])
    else if r.status = 429 then
      match pyInt (r.retryAfter.getD sixtyChars) with
      | some n => (none, [.harvest, .request u, .sleepRetry n])
      | none =>
        if k + 1 < 3 then (none, [.harvest, .request u, .sleepRand 15 30])
        else (some false, [.harvest, .request u])
    else
      if k + 1 < 3 then (none, [.harvest, .request u, .sleepRand 10 15])
      else (some false, [.harvest, .request u])

/-- SunoBot.unfollow_user: a handle already in the processed set
short-circuits to true with no event at all (lines 212-214); otherwise
up to MAX_RETRIES = 3 attempts run, and falling off the loop returns
false (line 327).  The handle is added to the processed set exactly when
a 204 response is seen (line 288), which is also the only way the call
returns true. -/
def unfollow_user (resp : Nat → RespU) (capture : Nat → Option AuthHeaders)
    (processed : List (List Char)) (u : List Char) :
    Bool × List (List Char) × List UEv :=
  if u ∈ processed then (true, processed, [])
  else
    let res :=
      match unfollowAttempt resp capture u 0 with
      | (some b, e0) => (b, e0)
      | (none, e0) =>
        match unfollowAttempt resp capture u 1 with
        | (some b, e1) => (b, e0 ++ e1)
        | (none, e1) =>
          match unfollowAttempt resp capture u 2 with
          | (some b, e2) => (b, e0 ++ e1 ++ e2)
          | (none, e2) => (false, e0 ++ e1 ++ e2)
    (res.1, if res.1 then processed ++ [u] else processed, res.2)

/-- A fixed captured credential bundle for concrete runs. -/
def someHeaders : AuthHeaders :=
  ⟨chars "tok", chars "sid", chars "dev", chars "aff"⟩

/-! ### Claim C5: idempotent short-circuit of the driver -/

/-- Claim C5: for a handle already present in the processed set,
unfollow_user returns true at once with an empty event trace (so no
harvest and no network request), leaves the processed set unchanged, and
a second call on the resulting state behaves identically. -/
theorem C5_idempotent_short_circuit (resp : Nat → RespU)
    (capture : Nat → Option AuthHeaders) (processed : List (List Char))
    (u : List Char) (h : u ∈ processed) :
    unfollow_user resp capture processed u = (true, processed, []) ∧
    unfollow_user resp capture
      (unfollow_user resp capture processed u).2.1 u = (true, processed, []) := by
  have h1 : unfollow_user resp capture processed u = (true, processed, []) := by
    simp [unfollow_user, h]
  refine ⟨h1, ?_⟩
  rw [h1]
  simp [unfollow_user, h]

/-- Witness for claim C5 at a concrete processed set. -/
theorem C5_idempotent_short_circuit_witness :
    unfollow_user (fun _ => ⟨204, none⟩) (fun _ => some someHeaders)
      [chars "bob"] (chars "bob") = (true, [chars "bob"], []) ∧
    unfollow_user (fun _ => ⟨204, none⟩) (fun _ => some someHeaders)
      (unfollow_user (fun _ => ⟨204, none⟩) (fun _ => some someHeaders)
        [chars "bob"] (chars "bob")).2.1 (chars "bob") =
      (true, [chars "bob"], []) :=
  C5_idempotent_short_circuit (fun _ => ⟨204, none⟩) (fun _ => some someHeaders)
    [chars "bob"] (chars "bob") (by decide)

/-! ### Claim C4: Retry-After handling of the driver -/

/-- The response schedule of the C4 counterexample: first attempt rate
limited with a malformed Retry-After header, second attempt succeeds. -/
def respC4ce : Nat → RespU :=
  fun k => if k = 0 then ⟨429, some (chars "abc")⟩ else ⟨204, none⟩

/-- Claim C4, counterexample: the claim states that a malformed
(non-integer) Retry-After header defaults to 60 seconds and the driver
then sleeps at least that long.  In the source the int conversion at
line 299 raises ValueError on a malformed header; the error falls
through to the generic handler at lines 320-325, which waits a
randomized 15 to 30 seconds, strictly less than 60 at its upper bound,
and no exact Retry-After sleep happens at all.  The handle is still only
recorded after the later 204. -/
theorem C4_malformed_retry_after_counterexample :
    pyInt (chars "abc") = none ∧
    unfollow_user respC4ce (fun _ => some someHeaders) [] (chars "bob") =
      (true, [chars "bob"],
        [.harvest, .request (chars "bob"), .sleepRand 15 30,
         .harvest, .request (chars "bob"), .sleepRand 30 60]) := by
  decide

/-- Claim C4, amended: on a 429 response the driver reads the
Retry-After header, defaulting to the string sixty only when the header
is ABSENT, sleeps exactly the parsed number of seconds and retries; a
malformed header instead raises ValueError into the generic retry path
(randomized 15-30 second wait, no 60 second default); in both cases the
handle is recorded as processed only once a later attempt returns
204. -/
theorem C4_retry_after_amended (resp : Nat → RespU) (hdr : Option (List Char))
    (n : Int) (u : List Char)
    (hparse : pyInt (hdr.getD sixtyChars) = some n)
    (h0 : resp 0 = ⟨429, hdr⟩) (h1 : resp 1 = ⟨204, none⟩) :
    unfollow_user resp (fun _ => some someHeaders) [] u =
      (true, [u],
        [.harvest, .request u, .sleepRetry n,
         .harvest, .request u, .sleepRand 30 60]) := by
  have ha0 : unfollowAttempt resp (fun _ => some someHeaders) u 0 =
      (none, [.harvest, .request u, .sleepRetry n]) := by
    simp [unfollowAttempt, ensure_auth_headers, h0, hparse]
  have ha1 : unfollowAttempt resp (fun _ => some someHeaders) u 1 =
      (some true, [.harvest, .request u, .sleepRand 30 60]) := by
    simp [unfollowAttempt, ensure_auth_headers, h1]
  simp [unfollow_user, ha0, ha1]

/-- The response schedule of the C4 witness: rate limited with no
Retry-After header on the first attempt, success on the second. -/
def respC4w : Nat → RespU :=
  fun k => if k = 0 then ⟨429, none⟩ else ⟨204, none⟩

/-- Witness for the amended claim C4: a missing header parses as 60. -/
theorem C4_retry_after_amended_witness :
    unfollow_user respC4w (fun _ => some someHeaders) [] (chars "bob") =
      (true, [chars "bob"],
        [.harvest, .request (chars "bob"), .sleepRetry 60,
         .harvest, .request (chars "bob"), .sleepRand 30 60]) :=
  C4_retry_after_amended respC4w none 60 (chars "bob") (by decide) rfl rfl

/-! ### Claim C7: error kinds of the two harvest timeouts -/

/-- A trivial mock API used only to exercise the failed-harvest path. -/
def apiNever : Nat → Nat → ApiResult :=
  fun _ _ => .otherErr

/-- Claim C7, counterexample: the claim states that BOTH the collector's
initial harvest and the driver's per-attempt harvest signal a
SessionError when the 20-second window closes without captured headers.
The driver does (line 259), but the collector raises a plain Exception
(line 413), not a SessionError, so the claim fails on the collector
half. -/
theorem C7_collector_error_kind_counterexample :
    get_users false apiNever = (.err .initialAuthFailure, []) ∧
    collectErrClass .initialAuthFailure = .genericError ∧
    PyError.genericError ≠ PyError.sessionError := by
  refine ⟨by simp [get_users], rfl, by decide⟩

/-- Claim C7, amended: failing to capture auth headers within the
window makes the driver's ensure_auth_headers signal a SessionError,
while the collector's initial harvest raises a plain generic Exception;
with a captured bundle the driver helper returns it. -/
theorem C7_harvest_error_kinds_amended :
    (∀ api : Nat → Nat → ApiResult,
      get_users false api = (.err .initialAuthFailure, [])) ∧
    collectErrClass .initialAuthFailure = .genericError ∧
    ensure_auth_headers none = .error .sessionError ∧
    (∀ h : AuthHeaders, ensure_auth_headers (some h) = .ok h) := by
  exact ⟨fun api => by simp [get_users], rfl, rfl, fun h => rfl⟩

/-! ### Claim C3: the progress ledger
(SunoBot.find_and_unfollow_nonreciprocal, source lines 503-536)

The progress file is opened in write mode at line 518 — truncating
whatever is on disk — and rewritten with the join of the in-memory
processed set, which a freshly constructed bot initializes to the empty
set (line 47); the file is never opened for reading anywhere in the
program.  Afterwards each target whose unfollow_user call returned true
is appended as a newline-prefixed line (lines 526-529).  The chunking
into groups of five and the randomized pauses between chunks affect
neither the file content nor the set of requests, so they are not part
of the state here. -/

/-- The file content written by the initial truncating write: the
newline join of the processed set snapshot. -/
def joinLines (ls : List (List Char)) : List Char :=
  List.intercalate ['\n'] ls

/-- Appending one successful handle to the progress file (line 529). -/
def appendLine (fs : List Char) (u : List Char) : List Char :=
  fs ++ '\n' :: u

/-- The network unfollow requests occurring in a driver event trace. -/
def requestsOf (evs : List UEv) : List (List Char) :=
  evs.filterMap (fun e =>
    match e with
    | .request h => some h
    | _ => none)

/-- Final state of one run over the target list: progress-file content,
processed set, and the unfollow requests issued on the network. -/
structure RunOut where
  fs : List Char
  processed : List (List Char)
  requests : List (List Char)
deriving DecidableEq

/-- The per-target loop of find_and_unfollow_nonreciprocal: run
unfollow_user for each target, append the handle to the progress file
whenever the call returns true. -/
def unfollowTargets (resp : List Char → Nat → RespU)
    (capture : List Char → Nat → Option AuthHeaders) (fs : List Char)
    (processed : List (List Char)) (reqs : List (List Char)) :
    List (List Char) → RunOut
  | [] => ⟨fs, processed, reqs⟩
  | u :: rest =>
    let r := unfollow_user (resp u) (capture u) processed u
    unfollowTargets resp capture (if r.1 then appendLine fs u else fs)
      r.2.1 (reqs ++ requestsOf r.2.2) rest

/-- SunoBot.find_and_unfollow_nonreciprocal restricted to its ledger
behaviour: fs0 is the progress-file content found on disk at run start
and processed0 the in-memory processed set (empty for a fresh process).
The disk content is discarded by the truncating write and is never read
by the program. -/
def find_and_unfollow (resp : List Char → Nat → RespU)
    (capture : List Char → Nat → Option AuthHeaders) (fs0 : List Char)
    (processed0 : List (List Char)) (targets : List (List Char)) : RunOut :=
  unfollowTargets resp capture (joinLines processed0) processed0 [] targets

/-- The lines of the progress file. -/
def linesOf (fs : List Char) : List (List Char) :=
  fs.splitOn '\n'

/-- Every unfollow call returns 204. -/
def respAll204 : List Char → Nat → RespU :=
  fun _ _ => ⟨204, none⟩

/-- Every harvest succeeds. -/
def capAll : List Char → Nat → Option AuthHeaders :=
  fun _ _ => some someHeaders

/-- Claim C3, counterexample: the claim states the ledger is read at run
start so that a resumed run does not unfollow handles already recorded.
Here the disk ledger of an interrupted previous run records the handle
a, yet the fresh resumed run (whose in-memory processed set is empty,
since the ledger is never read) issues an unfollow request for a
again. -/
theorem C3_ledger_not_read_counterexample :
    (find_and_unfollow respAll204 capAll (chars "a") []
      [chars "a", chars "c"]).requests = [chars "a", chars "c"] ∧
    chars "a" ∈ (find_and_unfollow respAll204 capAll (chars "a") []
      [chars "a", chars "c"]).requests := by
  decide

/-- Claim C3, amended: the progress file is truncated at run start and
rewritten from the in-memory processed set — it is never read, so a
resumed fresh process unfollows previously recorded handles again —
and within a single run over the targets a and c (the set difference of
following a,b,c and followers b) with every call returning 204, the
final ledger contains each of a and c on exactly one line, b on none,
whatever content the file had before the run. -/
theorem C3_ledger_amended (fs0 : List Char) :
    find_and_unfollow respAll204 capAll fs0 [] [chars "a", chars "c"] =
      ⟨chars "\na\nc", [chars "a", chars "c"], [chars "a", chars "c"]⟩ ∧
    (linesOf (chars "\na\nc")).count (chars "a") = 1 ∧
    (linesOf (chars "\na\nc")).count (chars "c") = 1 ∧
    (linesOf (chars "\na\nc")).count (chars "b") = 0 :=
  ⟨rfl, by decide, by decide, by decide⟩

/-! ### Claim C9: the reconciler (source lines 511-513) -/

/-- The target computation of find_and_unfollow_nonreciprocal: the set
difference of the following handles and the follower handles. -/
def users_to_unfollow (following_usernames follower_usernames : Finset (List Char)) :
    Finset (List Char) :=
  following_usernames \ follower_usernames

/-- Claim C9: the reconciler is exactly set difference — membership is
being followed and not following back — with the algebraic consequences
on equal, empty-subtrahend and empty inputs; as a Lean function it is
total, so it involves no input-output and no failure. -/
theorem C9_reconciler_set_difference (A B : Finset (List Char)) :
    (∀ x, x ∈ users_to_unfollow A B ↔ x ∈ A ∧ x ∉ B) ∧
    users_to_unfollow A A = ∅ ∧
    users_to_unfollow A ∅ = A ∧
    users_to_unfollow ∅ B = ∅ := by
  refine ⟨fun x => ?_, ?_, ?_, ?_⟩
  · simp [users_to_unfollow]
  · simp [users_to_unfollow]
  · simp [users_to_unfollow]
  · simp [users_to_unfollow]

/-! ### Claim C10: cleanup (SunoBot.cleanup, source lines 548-573) -/

/-- The four browser resources of the bot object.  Each present resource
carries a flag telling whether closing (for the page and the context) or
stopping (for the playwright engine) raises; the browser field has no
close call of its own. -/
structure BotState where
  page : Option Bool
  context : Option Bool
  browser : Option Bool
  playwright : Option Bool
deriving DecidableEq

/-- SunoBot.cleanup: the page close and the context close each sit in
their own inner try whose errors are swallowed, after which the field is
set to None; the browser field is set to None without a close; the
playwright stop call however is guarded only by the outer try — when it
raises, control jumps to the outer handler (which logs and swallows) and
the assignment of None to the playwright field is skipped.  The boolean
result records whether the outer handler caught an error; the function
itself never propagates one. -/
def cleanup (s : BotState) : BotState × Bool :=
  let s3 : BotState := ⟨none, none, none, s.playwright⟩
  match s3.playwright with
  | none => (s3, false)
  | some stopRaises =>
    if stopRaises then (s3, true)
    else ({ s3 with playwright := none }, false)

/-- Evaluation of cleanup on an arbitrary state. -/
theorem cleanup_eval (p c b pw : Option Bool) :
    cleanup ⟨p, c, b, pw⟩ =
      (⟨none, none, none,
        match pw with
        | some true => some true
        | _ => none⟩,
       match pw with
       | some true => true
       | _ => false) := by
  rcases pw with _ | b'
  · rfl
  · cases b' <;> rfl

/-- Claim C10, counterexample: the claim states that one cleanup call
leaves the page, context and playwright fields None with every
resource-closing error swallowed.  When the playwright stop call raises,
the error is indeed swallowed by the outer handler, but the handler is
reached before the None assignment, so the playwright field stays
set. -/
theorem C10_playwright_not_cleared_counterexample :
    cleanup ⟨some false, some false, some false, some true⟩ =
      (⟨none, none, none, some true⟩, true) ∧
    (cleanup ⟨some false, some false, some false, some true⟩).1.playwright ≠ none := by
  decide

/-- Claim C10, amended: cleanup never raises (it is a total function
whose boolean return merely records a swallowed error); every call
clears the page, context and browser fields regardless of close errors;
the playwright field is cleared exactly when the stop call does not
raise, and stays set when it does; on the all-None state reached after
a fully successful call, a second call is a no-op, so the double
invocation from the run method and the interrupt handler is safe. -/
theorem C10_cleanup_amended (s : BotState) :
    (cleanup s).1.page = none ∧
    (cleanup s).1.context = none ∧
    (cleanup s).1.browser = none ∧
    (cleanup s).1.playwright =
      (match s.playwright with
       | some true => some true
       | _ => none) ∧
    cleanup ⟨none, none, none, none⟩ = (⟨none, none, none, none⟩, false) := by
  obtain ⟨p, c, b, pw⟩ := s
  rw [cleanup_eval]
  exact ⟨rfl, rfl, rfl, rfl, by decide⟩

end SunoUnfollow
